import Mathlib

/-!
Verification of the FFI helper layer and the Avahi poll wrapper of the
zeroconf binding crate, against its specification.

Modelling conventions (shallow embedding):
- Raw pointers are modelled as natural numbers; the address 0 is the null
  pointer.
- A Rust function that can abort the process (a failed assertion, or an
  out-of-bounds slice index) is embedded as a function into Option, with
  none for the abort.
- Native C calls whose results the Rust code inspects (select,
  avahi_simple_poll_new, avahi_simple_poll_iterate) are oracles: their
  result is passed to the embedded function as an extra argument, and the
  sequence of native calls a function performs is returned as an explicit
  trace, so that resource-usage statements (exactly one allocation,
  exactly one free) become statements about that trace.
- Machine integers are embedded as Int/Nat with the casts the source
  performs made explicit as arithmetic modulo 2^w.
-/

/-! ## Raw-handle guard helpers (src/zeroconf/src/ffi/mod.rs) -/

/-- Modelled from the spec: the assert_not_null! macro is declared in
src/macros.rs, which is not among the provided sources. Per the spec's
error taxonomy, a NullPointer "aborts loudly rather than being silently
swallowed"; the abort is modelled as none, and success as some (). -/
def assert_not_null (p : Nat) : Option Unit :=
  if p = 0 then none else some ()

/-- FromRaw::from_raw: asserts the raw pointer non-null, then reinterprets
it as a mutable reference (here: the address the reference points at). -/
def from_raw (raw : Nat) : Option Nat :=
  (assert_not_null raw).bind (fun _ => some raw)

/-- CloneRaw::clone_raw: asserts the raw pointer non-null, dereferences it
via from_raw, clones the pointed-to value (mem raw) and boxes the clone at
a fresh heap address boxAddr chosen by the allocator. -/
def clone_raw {α : Type} (mem : Nat → α) (boxAddr : Nat) (raw : Nat) :
    Option (Nat × α) :=
  (assert_not_null raw).bind
    (fun _ => (from_raw raw).map (fun r => (boxAddr, mem r)))

/-- AsRaw::as_raw: the cast `self as *mut _ as *mut c_void` only
reinterprets the pointer type; the address is unchanged, memory is not
read or written, and nothing is allocated, which the model reflects by the
function taking and returning only the address. -/
def as_raw (addr : Nat) : Nat := addr

/-- Rust's Option::unwrap_or_else, the standard-library combinator the
two unwrapping impls delegate to. -/
def option_unwrap_or_else {α : Type} (o : Option α) (f : Unit → α) : α :=
  match o with
  | some x => x
  | none => f ()

/-- UnwrapOrNull for Option of a const pointer: unwrap_or_else with
ptr::null() (address 0) as the fallback. -/
def unwrap_or_null (o : Option Nat) : Nat :=
  option_unwrap_or_else o (fun _ => 0)

/-- UnwrapMutOrNull for Option of a mut pointer: unwrap_or_else with
ptr::null_mut() (address 0) as the fallback. -/
def unwrap_mut_or_null (o : Option Nat) : Nat :=
  option_unwrap_or_else o (fun _ => 0)

/-! ## The hand-written Windows fd_set (src/zeroconf/src/ffi/mod.rs,
windows module) -/

/-- windows_sys FD_SETSIZE: 64. -/
def FD_SETSIZE : Nat := 64

/-- windows_sys fd_set: a count and an array of 64 SOCKET (usize) slots.
The list models the fixed-size array; its length is 64 in every state the
program constructs. -/
structure Winsock_fd_set where
  fd_count : Nat
  fd_array : List Nat
deriving DecidableEq

/-- The `fd as usize` cast of an i32 file descriptor: two's-complement
reinterpretation into 64 bits. -/
def usize_of_i32 (fd : Int) : Nat := (fd % (2 : Int) ^ 64).toNat

/-- The `result as u32` cast of a non-negative i32 select result. -/
def u32_of_i32 (r : Int) : Nat := (r % (2 : Int) ^ 32).toNat

/-- The while loop of the hand-written FD_SET. The Rust loop is
`while i < fd_count { i += 1; if fd_array[i] == fd { break } }`; it runs at
most fd_count iterations (i increases by one per iteration), so it is
embedded structurally on the remaining iteration count fuel = fd_count - i.
Rust's indexing panics when the index reaches the array length; the panic
is modelled as none. The result is the final value of i. -/
def fd_set_scan (fd : Nat) (arr : List Nat) : Nat → Nat → Option Nat
  | i, 0 => some i
  | i, fuel + 1 =>
    match arr[i + 1]? with
    | none => none
    | some v => if v = fd then some (i + 1) else fd_set_scan fd arr (i + 1) fuel

/-- The hand-written windows::FD_SET: scan for the descriptor, then append
it when the scan ran off the end of the occupied prefix and there is room.
The write `fd_array[i] = fd` panics (none) if i is out of bounds. -/
def FD_SET (fd : Int) (s : Winsock_fd_set) : Option Winsock_fd_set :=
  match fd_set_scan (usize_of_i32 fd) s.fd_array 0 s.fd_count with
  | none => none
  | some i =>
    if i = s.fd_count ∧ s.fd_count < FD_SETSIZE then
      if i < s.fd_array.length then
        some { fd_count := s.fd_count + 1,
               fd_array := s.fd_array.set i (usize_of_i32 fd) }
      else none
    else some s

/-- The hand-written windows::FD_ZERO: sets fd_count to 0, leaving
fd_array untouched (stale slots remain). -/
def FD_ZERO (s : Winsock_fd_set) : Winsock_fd_set :=
  { s with fd_count := 0 }

/-- mem::zeroed fd_set: count 0 and all 64 slots zero. -/
def zeroed_fd_set : Winsock_fd_set :=
  { fd_count := 0, fd_array := List.replicate 64 0 }

/-! ## read_select (src/zeroconf/src/ffi/mod.rs, macos and windows
modules)

The native select call is an oracle: its i32 return value is the argument
result. The timeout is only forwarded to the native call, so it does not
appear in the model. The crate error type (src/error.rs, not among the
provided sources) is modelled as the message string handed to .into(). -/

/-- The literal error message of both read_select implementations. -/
def select_err_msg : String := "select(): returned error status"

/-- macos::read_select, from the native select result onward: Err on a
negative result, otherwise Ok of the result cast to u32. The fd_set setup
before the call uses the external libc FD_ZERO/FD_SET macros and affects
only the arguments of the native call, not the embedded logic. -/
def macos_read_select (result : Int) : Except String Nat :=
  if result < 0 then Except.error select_err_msg
  else Except.ok (u32_of_i32 result)

/-- windows::read_select: builds the fd_set with the hand-written
FD_ZERO/FD_SET (whose index panic propagates as none), then branches on
the native select result exactly as the macos variant does. -/
def windows_read_select (sock_fd : Int) (result : Int) :
    Option (Except String Nat) :=
  (FD_SET sock_fd (FD_ZERO zeroed_fd_set)).map
    (fun _ =>
      if result < 0 then Except.error select_err_msg
      else Except.ok (u32_of_i32 result))

/-! ## ManagedAvahiSimplePoll (src/zeroconf/src/linux/poll.rs) -/

/-- Native Avahi calls the wrapper can perform, recorded as a trace. -/
inductive AvahiOp : Type where
  | simple_poll_new : AvahiOp
  | simple_poll_free : Nat → AvahiOp
  | simple_poll_iterate : Nat → Int → AvahiOp
deriving DecidableEq

/-- ManagedAvahiSimplePoll: wraps the raw AvahiSimplePoll pointer. -/
structure ManagedAvahiSimplePoll where
  handle : Nat
deriving DecidableEq

/-- ManagedAvahiSimplePoll::new: calls avahi_simple_poll_new (the oracle
result is allocResult; 0 is null), returns Err when the allocation came
back null and Ok wrapping the pointer otherwise. The trace records every
native call the function performs. -/
def ManagedAvahiSimplePoll_new (allocResult : Nat) :
    Except String ManagedAvahiSimplePoll × List AvahiOp :=
  (if allocResult = 0 then Except.error "could not initialize AvahiSimplePoll"
   else Except.ok ⟨allocResult⟩,
   [AvahiOp.simple_poll_new])

/-- ManagedAvahiSimplePoll::iterate: one call to
avahi_simple_poll_iterate(self.0, sleep_time); the native return value
(oracle nativeRet) is discarded and the function returns unit. -/
def ManagedAvahiSimplePoll_iterate (s : ManagedAvahiSimplePoll)
    (sleep_time : Int) (nativeRet : Int) : Unit × List AvahiOp :=
  ((), [AvahiOp.simple_poll_iterate s.handle sleep_time])

/-- Drop for ManagedAvahiSimplePoll: one unconditional call to
avahi_simple_poll_free(self.0). -/
def ManagedAvahiSimplePoll_drop (s : ManagedAvahiSimplePoll) :
    List AvahiOp :=
  [AvahiOp.simple_poll_free s.handle]

/-! ## Helper lemmas -/

/-- FD_SET on a freshly zeroed set always succeeds: the scan loop does not
run (fd_count is 0) and the descriptor is written into slot 0. -/
theorem FD_SET_zeroed (fd : Int) :
    FD_SET fd (FD_ZERO zeroed_fd_set) =
      some { fd_count := 1,
             fd_array := (List.replicate 64 0).set 0 (usize_of_i32 fd) } := by
  simp [FD_SET, FD_ZERO, zeroed_fd_set, fd_set_scan, FD_SETSIZE]

/-- windows_read_select never hits the fd_set index panic: it reduces to
the same result branch as the macos variant. -/
theorem windows_read_select_eq (fd r : Int) :
    windows_read_select fd r =
      some (if r < 0 then Except.error select_err_msg
            else Except.ok (u32_of_i32 r)) := by
  rw [windows_read_select, FD_SET_zeroed]
  rfl

/-- A non-negative i32 value survives the `as u32` cast unchanged. -/
theorem u32_of_i32_eq (r : Int) (h0 : 0 ≤ r) (h2 : r < 2 ^ 31) :
    (u32_of_i32 r : Int) = r := by
  have hlt : r < (2 : Int) ^ 32 := by
    calc r < (2 : Int) ^ 31 := h2
    _ ≤ (2 : Int) ^ 32 := by norm_num
  rw [u32_of_i32, Int.emod_eq_of_lt h0 hlt, Int.toNat_of_nonneg h0]

/-! ## Claims -/

/-- C1: for every socket descriptor and native select result in i32 range,
read_select (both the macos and the windows variant) returns Ok n exactly
when the native result is the non-negative n, and Err exactly when the
native result is negative; a negative result is never reported as a
success count. -/
theorem read_select_ok_iff_nonneg (fd r : Int)
    (h1 : -(2 ^ 31) ≤ r) (h2 : r < 2 ^ 31) :
    ((∃ n : Nat, macos_read_select r = Except.ok n ∧ (n : Int) = r) ↔ 0 ≤ r)
  ∧ ((∃ e, macos_read_select r = Except.error e) ↔ r < 0)
  ∧ ((∃ n : Nat, windows_read_select fd r = some (Except.ok n) ∧ (n : Int) = r)
      ↔ 0 ≤ r)
  ∧ ((∃ e, windows_read_select fd r = some (Except.error e)) ↔ r < 0) := by
  have hw := windows_read_select_eq fd r
  by_cases hr : r < 0
  · have hm : macos_read_select r = Except.error select_err_msg := by
      simp [macos_read_select, hr]
    rw [hw]
    refine ⟨?_, ?_, ?_, ?_⟩
    · constructor
      · rintro ⟨n, hn, _⟩
        rw [hm] at hn
        exact absurd hn (by simp)
      · intro h0
        exact absurd hr (not_lt.mpr h0)
    · exact ⟨fun _ => hr, fun _ => ⟨select_err_msg, hm⟩⟩
    · constructor
      · rintro ⟨n, hn, _⟩
        rw [if_pos hr] at hn
        exact absurd (Option.some_injective _ hn) (by simp)
      · intro h0
        exact absurd hr (not_lt.mpr h0)
    · exact ⟨fun _ => hr, fun _ => ⟨select_err_msg, by rw [if_pos hr]⟩⟩
  · have h0 : 0 ≤ r := not_lt.mp hr
    have hm : macos_read_select r = Except.ok (u32_of_i32 r) := by
      simp [macos_read_select, hr]
    have hval : (u32_of_i32 r : Int) = r := u32_of_i32_eq r h0 h2
    rw [hw]
    refine ⟨?_, ?_, ?_, ?_⟩
    · exact ⟨fun _ => h0, fun _ => ⟨u32_of_i32 r, hm, hval⟩⟩
    · constructor
      · rintro ⟨e, he⟩
        rw [hm] at he
        exact absurd he (by simp)
      · intro hneg
        exact absurd hneg hr
    · exact ⟨fun _ => h0, fun _ => ⟨u32_of_i32 r, by rw [if_neg hr], hval⟩⟩
    · constructor
      · rintro ⟨e, he⟩
        rw [if_neg hr] at he
        exact absurd (Option.some_injective _ he) (by simp)
      · intro hneg
        exact absurd hneg hr

/-- Witness for C1 at fd 3, native result 0 (timed out): both variants
report Ok 0. -/
theorem read_select_ok_iff_nonneg_witness :
    ∃ n : Nat, macos_read_select 0 = Except.ok n ∧ (n : Int) = 0 :=
  ((read_select_ok_iff_nonneg 3 0 (by norm_num) (by norm_num)).1).mpr le_rfl

/-- C2 counterexample: at native result -1 (and any other negative
result), the Err message is the fixed literal "select(): returned error
status"; it is identical for distinct error results and contains no digit
character, so no numeric OS error code can appear inside it. -/
theorem read_select_err_msg_has_no_code :
    macos_read_select (-1) = Except.error select_err_msg
  ∧ macos_read_select (-1) = macos_read_select (-2)
  ∧ windows_read_select 3 (-1) = some (Except.error select_err_msg)
  ∧ select_err_msg.data.all (fun c => !c.isDigit) = true := by
  refine ⟨rfl, rfl, ?_, ?_⟩
  · rw [windows_read_select_eq]
    norm_num
  · decide

/-- C2 amended: whenever the native select call fails (negative result),
read_select returns Err carrying the fixed message "select(): returned
error status"; the OS error code is not included in the message. -/
theorem read_select_err_fixed_msg (fd r : Int) (h : r < 0) :
    macos_read_select r = Except.error select_err_msg
  ∧ windows_read_select fd r = some (Except.error select_err_msg) := by
  constructor
  · simp [macos_read_select, h]
  · rw [windows_read_select_eq, if_pos h]

/-- Witness for the amended C2 at fd 3, native result -1. -/
theorem read_select_err_fixed_msg_witness :
    macos_read_select (-1) = Except.error select_err_msg :=
  (read_select_err_fixed_msg 3 (-1) (by norm_num)).1

/-- C3: ManagedAvahiSimplePoll::new fails exactly when the native
allocation returned null, otherwise wraps exactly the non-null handle; on
every path the trace is the single allocation call, so no other native
resource is created on the failure path. -/
theorem simple_poll_new_atomic (p : Nat) :
    (ManagedAvahiSimplePoll_new p).2 = [AvahiOp.simple_poll_new]
  ∧ ((∃ e, (ManagedAvahiSimplePoll_new p).1 = Except.error e) ↔ p = 0)
  ∧ (∀ s, (ManagedAvahiSimplePoll_new p).1 = Except.ok s →
      s.handle = p ∧ p ≠ 0) := by
  refine ⟨rfl, ?_, ?_⟩
  · constructor
    · rintro ⟨e, he⟩
      by_contra hp
      simp [ManagedAvahiSimplePoll_new, hp] at he
    · intro hp
      exact ⟨"could not initialize AvahiSimplePoll", by
        simp [ManagedAvahiSimplePoll_new, hp]⟩
  · intro s hs
    by_cases hp : p = 0
    · simp [ManagedAvahiSimplePoll_new, hp] at hs
    · rw [ManagedAvahiSimplePoll_new] at hs
      simp only [if_neg hp] at hs
      injection hs with h2
      subst h2
      exact ⟨rfl, hp⟩

/-- Witness for C3 at allocation results 0 (null) and 5. -/
theorem simple_poll_new_atomic_witness :
    (ManagedAvahiSimplePoll_new 0).2 = [AvahiOp.simple_poll_new]
  ∧ ((⟨5⟩ : ManagedAvahiSimplePoll).handle = 5 ∧ (5 : Nat) ≠ 0) :=
  ⟨(simple_poll_new_atomic 0).1,
   (simple_poll_new_atomic 5).2.2 ⟨5⟩ rfl⟩

/-- C4 counterexample: dropping a wrapper whose handle is null still
issues the native free call on the null pointer — the release performs
exactly one free of handle 0, so it is not a guarded no-op on a null
handle. -/
theorem simple_poll_drop_frees_null_handle :
    ManagedAvahiSimplePoll_drop ⟨0⟩ = [AvahiOp.simple_poll_free 0]
  ∧ (ManagedAvahiSimplePoll_drop ⟨0⟩).count (AvahiOp.simple_poll_free 0)
      = 1 := by
  exact ⟨rfl, rfl⟩

/-- C4 amended: every drop performs exactly one native free call, on the
wrapped handle, unconditionally — there is no null guard in the wrapper;
a null handle can never arise from a successful construction, since new
only wraps non-null allocation results. -/
theorem simple_poll_drop_frees_exactly_once :
    (∀ s : ManagedAvahiSimplePoll,
      ManagedAvahiSimplePoll_drop s = [AvahiOp.simple_poll_free s.handle])
  ∧ (∀ p s, (ManagedAvahiSimplePoll_new p).1 = Except.ok s →
      s.handle ≠ 0) := by
  refine ⟨fun s => rfl, fun p s hs => ?_⟩
  by_cases hp : p = 0
  · simp [ManagedAvahiSimplePoll_new, hp] at hs
  · rw [ManagedAvahiSimplePoll_new] at hs
    simp only [if_neg hp] at hs
    injection hs with h2
    subst h2
    exact hp

/-- Witness for the amended C4 at handle 7. -/
theorem simple_poll_drop_frees_exactly_once_witness :
    ManagedAvahiSimplePoll_drop ⟨7⟩ = [AvahiOp.simple_poll_free 7]
  ∧ ((⟨7⟩ : ManagedAvahiSimplePoll).handle ≠ 0) :=
  ⟨simple_poll_drop_frees_exactly_once.1 ⟨7⟩,
   simple_poll_drop_frees_exactly_once.2 7 ⟨7⟩ rfl⟩

/-- C5: every call to iterate performs exactly one native poll-iterate
call on the wrapped handle with the given sleep time, and returns unit to
the caller whatever the native return code is: the result does not depend
on the native code, and the function is total (it cannot fail). -/
theorem simple_poll_iterate_once_total (s : ManagedAvahiSimplePoll)
    (sleep r1 r2 : Int) :
    ManagedAvahiSimplePoll_iterate s sleep r1 =
      ((), [AvahiOp.simple_poll_iterate s.handle sleep])
  ∧ ManagedAvahiSimplePoll_iterate s sleep r1 =
      ManagedAvahiSimplePoll_iterate s sleep r2 :=
  ⟨rfl, rfl⟩

/-- C6: from_raw and clone_raw abort (modelled as none) exactly when the
raw pointer is null, and on a non-null pointer from_raw yields the mutable
reference at exactly that address while clone_raw yields the clone of the
value stored there. -/
theorem from_raw_clone_raw_null_guard {α : Type} (raw : Nat)
    (mem : Nat → α) (boxAddr : Nat) :
    (from_raw raw = none ↔ raw = 0)
  ∧ (raw ≠ 0 → from_raw raw = some raw)
  ∧ (clone_raw mem boxAddr raw = none ↔ raw = 0)
  ∧ (raw ≠ 0 → clone_raw mem boxAddr raw = some (boxAddr, mem raw)) := by
  by_cases h : raw = 0
  · subst h
    refine ⟨by simp [from_raw, assert_not_null], fun hc => absurd rfl hc,
      by simp [clone_raw, assert_not_null], fun hc => absurd rfl hc⟩
  · refine ⟨?_, fun _ => ?_, ?_, fun _ => ?_⟩
    · simp [from_raw, assert_not_null, h]
    · simp [from_raw, assert_not_null, h]
    · simp [clone_raw, from_raw, assert_not_null, h]
    · simp [clone_raw, from_raw, assert_not_null, h]

/-- Witness for C6 at the non-null address 4 and the null address 0. -/
theorem from_raw_clone_raw_null_guard_witness :
    from_raw 4 = some 4
  ∧ clone_raw (fun n : Nat => n + 1) 9 4 = some (9, 5)
  ∧ from_raw 0 = none :=
  ⟨(from_raw_clone_raw_null_guard 4 (fun n : Nat => n + 1) 9).2.1
     (by decide),
   (from_raw_clone_raw_null_guard 4 (fun n : Nat => n + 1) 9).2.2.2
     (by decide),
   (from_raw_clone_raw_null_guard 0 (fun n : Nat => n + 1) 9).1.mpr rfl⟩

/-- C7: unwrap_or_null and unwrap_mut_or_null return the contained pointer
when the option is some and the null pointer (address 0) when it is none;
they are total functions — no assertion, no abort — and in particular a
contained null pointer is returned as-is. -/
theorem unwrap_or_null_total (o : Option Nat) :
    unwrap_or_null o = (match o with | some p => p | none => 0)
  ∧ unwrap_mut_or_null o = (match o with | some p => p | none => 0)
  ∧ unwrap_or_null (some 0) = 0
  ∧ unwrap_mut_or_null (some 0) = 0 := by
  cases o <;>
    exact ⟨rfl, rfl, rfl, rfl⟩

/-- C8: as_raw is the identity on the address (a pure cast that touches no
memory and allocates nothing — it does not even receive the heap), and it
round-trips with the guards: from_raw of the cast gives back a reference
to exactly the original value, and clone_raw of the cast gives an owned
copy of the value at a fresh box address distinct from the original
storage. The hypotheses record Rust-level facts about the input: a live
value never sits at address 0, and the allocator hands Box::new an address
disjoint from live storage. -/
theorem as_raw_roundtrip {α : Type} (mem : Nat → α) (addr boxAddr : Nat)
    (hlive : addr ≠ 0) (hfresh : boxAddr ≠ addr) :
    as_raw addr = addr
  ∧ from_raw (as_raw addr) = some addr
  ∧ clone_raw mem boxAddr (as_raw addr) = some (boxAddr, mem addr)
  ∧ boxAddr ≠ addr := by
  refine ⟨rfl, ?_, ?_, hfresh⟩
  · exact (from_raw_clone_raw_null_guard addr mem boxAddr).2.1 hlive
  · exact (from_raw_clone_raw_null_guard addr mem boxAddr).2.2.2 hlive

/-- Witness for C8 at address 2, box address 3, heap n ↦ n + 10. -/
theorem as_raw_roundtrip_witness :
    from_raw (as_raw 2) = some 2
  ∧ clone_raw (fun n : Nat => n + 10) 3 (as_raw 2) = some (3, 12) :=
  ⟨(as_raw_roundtrip (fun n : Nat => n + 10) 2 3 (by decide)
      (by decide)).2.1,
   (as_raw_roundtrip (fun n : Nat => n + 10) 2 3 (by decide)
      (by decide)).2.2.1⟩

/-- C9: evaluation at the failing input. A full set (fd_count equal to
FD_SETSIZE, 64 slots all holding 0) with a descriptor that is not present
makes FD_SET read fd_array at index 64 = FD_SETSIZE, out of bounds
(modelled as none, the Rust index panic): the loop increments i before
reading fd_array[i], so its last read is at index fd_count instead of
fd_count - 1 as in the C macro quoted in the source comment. -/
theorem fd_set_oob_at_full_count :
    FD_SET 999 { fd_count := 64, fd_array := List.replicate 64 0 }
      = none := by
  decide

/-- C10: evaluation at the failing input. After FD_ZERO, adding the same
descriptor 5 twice yields fd_count 2, not 1: the scan loop starts reading
at index 1, so the copy of the descriptor stored at index 0 by the first
call is never seen by the second call, which appends a duplicate. -/
theorem fd_set_duplicate_appended :
    ((FD_SET 5 (FD_ZERO zeroed_fd_set)).bind (FD_SET 5)).map
      Winsock_fd_set.fd_count = some 2 := by
  decide
